import Mathlib

/-!
Shallow embedding, in Lean 4, of the order-lifecycle and risk-gating core of
the streamscalp-pro repository, together with theorems settling the frozen
claims about it.

Embedded modules:
* `src/order_manager/order_state.py` — `OrderStateManager` (order lifecycle
  state machine, history, retry counting, exchange reconciliation);
* `src/risk_manager/risk_manager.py` — `RiskManager` (pre-trade checks,
  position book, daily P&L);
* `src/order_manager/order_manager.py` — `OrderManager.process_order`,
  `cancel_order`, `get_order_status` (the orchestration pipeline).

Modelling conventions:
* Python dicts keyed by strings become association lists
  `List (String × α)` with `lookupKey` / `setKey` / `removeKey` mirroring
  `d.get(k)`, `d[k] = v` and `d.pop(k)`.
* Python numbers become exact rationals `ℚ`; the one place the code
  manufactures `float('inf')` is modelled by the two-point extension
  `ExtRat` of `ℚ`.
* `datetime.utcnow()` becomes an explicit `now : Nat` argument; its value is
  stored but never branched on.
* Exchange-adapter calls are inputs: each call's outcome is an
  `Except String _` value (`Except.error` models a raised exception), with
  `Option` inside it where the Python code checks the result for falsiness.
* Event-bus publishes are collected into an output list of `EventMsg`.
-/

namespace StreamScalp

/-- Look a key up in an association list, as Python's `d.get(k)` (`none` when
absent). -/
def lookupKey {α : Type} (k : String) : List (String × α) → Option α
  | [] => none
  | (k', v) :: rest => if k' = k then some v else lookupKey k rest

/-- Write a key in an association list, as Python's `d[k] = v`: replace the
existing entry in place, or append a new one. -/
def setKey {α : Type} (k : String) (v : α) : List (String × α) → List (String × α)
  | [] => [(k, v)]
  | (k', v') :: rest => if k' = k then (k, v) :: rest else (k', v') :: setKey k v rest

/-- Remove a key from an association list, as Python's `d.pop(k)` on a dict
(at most one entry per key). -/
def removeKey {α : Type} (k : String) : List (String × α) → List (String × α)
  | [] => []
  | (k', v) :: rest => if k' = k then rest else (k', v) :: removeKey k rest

theorem lookupKey_setKey_self {α : Type} (k : String) (v : α) (l : List (String × α)) :
    lookupKey k (setKey k v l) = some v := by
  induction l with
  | nil => simp [lookupKey, setKey]
  | cons hd tl ih =>
    obtain ⟨k', v'⟩ := hd
    by_cases h : k' = k
    · simp [lookupKey, setKey, h]
    · simp [lookupKey, setKey, h, ih]

theorem lookupKey_setKey_ne {α : Type} {k k' : String} (v : α) (l : List (String × α))
    (h : k' ≠ k) : lookupKey k' (setKey k v l) = lookupKey k' l := by
  have h' : ¬(k = k') := fun hh => h hh.symm
  induction l with
  | nil => simp [lookupKey, setKey, h']
  | cons hd tl ih =>
    obtain ⟨k0, v0⟩ := hd
    by_cases h0 : k0 = k
    · subst h0
      simp [lookupKey, setKey, h']
    · simp [lookupKey, setKey, h0, ih]

/-- Python's `str.lower()`, as the embedded code applies it to ASCII status
and side strings: lowercase each character. -/
def pyLower (s : String) : String := ⟨s.data.map Char.toLower⟩

/-- The states of `order_state.py`'s `OrderState` enumeration. -/
inductive OrderState
  | PENDING
  | SENT
  | FILLED
  | PARTIALLY_FILLED
  | CANCELED
  | REJECTED
  | ERROR
deriving DecidableEq, Repr

/-- The two fields of the exchange `details` dict that
`reconcile_with_exchange` reads via `details.get('filled')` and
`details.get('amount')` (`none` models an absent key). -/
structure ExchDetails where
  filled : Option ℚ
  amount : Option ℚ
deriving DecidableEq, Repr

/-- One entry of an order's state history: the dict
`{'state': …, 'timestamp': …, 'details': …}` appended by
`initialize_order` / `update_state`. -/
structure HistoryEntry where
  state : OrderState
  timestamp : Nat
  details : Option ExchDetails
deriving DecidableEq, Repr

/-- The mutable state of `OrderStateManager`: the three dicts
`order_states`, `order_history`, `retry_attempts`, and `max_retries`. -/
structure OrderStateManager where
  order_states : List (String × OrderState)
  order_history : List (String × List HistoryEntry)
  retry_attempts : List (String × Nat)
  max_retries : Nat
deriving DecidableEq, Repr

/-- A freshly constructed `OrderStateManager()`: empty dicts,
`max_retries = 3`. -/
def OrderStateManager.new : OrderStateManager :=
  { order_states := [], order_history := [], retry_attempts := [], max_retries := 3 }

/-- `OrderStateManager.initialize_order`: unconditionally writes `PENDING`
state, a fresh single-entry history, and retry count `0` for the key. -/
def initialize_order (m : OrderStateManager) (order_id : String) (now : Nat) :
    OrderStateManager :=
  { m with
    order_states := setKey order_id OrderState.PENDING m.order_states
    order_history := setKey order_id [⟨OrderState.PENDING, now, none⟩] m.order_history
    retry_attempts := setKey order_id 0 m.retry_attempts }

/-- `OrderStateManager.update_state`: auto-initializes an unknown key, then
overwrites the current state and appends a history entry. The history append
is totalized with `getD []`; the Python code would raise `KeyError` in the
(unreachable through this API) case of a key present in `order_states` but
absent from `order_history`. -/
def update_state (m : OrderStateManager) (order_id : String) (new_state : OrderState)
    (details : Option ExchDetails) (now : Nat) : OrderStateManager :=
  let m1 := if lookupKey order_id m.order_states = none
            then initialize_order m order_id now else m
  { m1 with
    order_states := setKey order_id new_state m1.order_states
    order_history := setKey order_id
      ((lookupKey order_id m1.order_history).getD [] ++ [⟨new_state, now, details⟩])
      m1.order_history }

/-- `OrderStateManager.get_current_state`. -/
def get_current_state (m : OrderStateManager) (order_id : String) : Option OrderState :=
  lookupKey order_id m.order_states

/-- `OrderStateManager.get_state_history` (empty list for an unknown key). -/
def get_state_history (m : OrderStateManager) (order_id : String) : List HistoryEntry :=
  (lookupKey order_id m.order_history).getD []

/-- `OrderStateManager.should_retry`: returns the boolean and the updated
manager (the counter increment is its side effect). The increment is
totalized with `getD 0`; the Python `self.retry_attempts[order_id] += 1`
would raise only for a key present in `order_states` but absent from
`retry_attempts`, which is unreachable through this API. -/
def should_retry (m : OrderStateManager) (order_id : String) :
    Bool × OrderStateManager :=
  match lookupKey order_id m.order_states with
  | none => (false, m)
  | some current_state =>
    let retry_count := (lookupKey order_id m.retry_attempts).getD 0
    if (current_state = OrderState.ERROR ∨ current_state = OrderState.REJECTED)
        ∧ retry_count < m.max_retries then
      (true, { m with retry_attempts := setKey order_id (retry_count + 1) m.retry_attempts })
    else
      (false, m)

/-- The `status_mapping` dict of `reconcile_with_exchange` as a partial map
(`none` models an absent key, handled by `.get`'s default). -/
def status_mapping (s : String) : Option OrderState :=
  if s = "new" then some OrderState.SENT
  else if s = "open" then some OrderState.SENT
  else if s = "closed" then some OrderState.FILLED
  else if s = "canceled" then some OrderState.CANCELED
  else if s = "expired" then some OrderState.CANCELED
  else if s = "rejected" then some OrderState.REJECTED
  else if s = "failed" then some OrderState.ERROR
  else none

/-- `OrderStateManager.reconcile_with_exchange`: the partial-fill branch
compares the raw status to `'closed'` (case-sensitively) and the fields
`filled` and `amount`; the dictionary lookup lowercases the status and
defaults to `ERROR`. Ends by calling `update_state`. -/
def reconcile_with_exchange (m : OrderStateManager) (order_id : String)
    (exchange_status : String) (details : ExchDetails) (now : Nat) : OrderStateManager :=
  let new_state :=
    if exchange_status = "closed" ∧ details.filled ≠ details.amount then
      OrderState.PARTIALLY_FILLED
    else
      (status_mapping (pyLower exchange_status)).getD OrderState.ERROR
  update_state m order_id new_state (some details) now

/-- A Python float value as this code uses them: an exact finite rational, or
the `float('inf')` manufactured by `evaluate_order` when
`account_balance <= 0`. -/
inductive ExtRat
  | fin (q : ℚ)
  | inf
deriving DecidableEq, Repr

/-- Strict `>` on `ExtRat`, as Python compares floats with `inf` (`inf > x`
is true for finite `x`; `inf > inf` is false). -/
def ExtRat.gt : ExtRat → ExtRat → Bool
  | .fin a, .fin b => decide (b < a)
  | .inf, .fin _ => true
  | .fin _, .inf => false
  | .inf, .inf => false

/-- Addition on `ExtRat` (`inf` absorbs, as Python float addition). -/
def ExtRat.add : ExtRat → ExtRat → ExtRat
  | .fin a, .fin b => .fin (a + b)
  | _, _ => .inf

/-- The position dict built by `OrderManager._handle_order_filled` and stored
by `RiskManager.record_position_open`; `evaluate_order` reads its `value`
field via `pos_data.get("value", 0)`. -/
structure Position where
  symbol : String
  side : String
  quantity : ℚ
  price : ℚ
  value : ℚ
deriving DecidableEq, Repr

/-- The trade dict built by `OrderManager._handle_order_filled` and published
on `trade.executed`. -/
structure TradeData where
  order_id : String
  exchange_order_id : Option String
  symbol : String
  side : String
  quantity : ℚ
  price : ℚ
  fee : ℚ
deriving DecidableEq, Repr

/-- The mutable state of `RiskManager`: the four configured limits and the
running risk state (`open_positions`, `daily_pnl`, `daily_trades`). The
`last_reset` timestamp is omitted: no embedded operation branches on it. -/
structure RiskManager where
  max_position_size : ℚ
  max_daily_loss : ℚ
  max_open_positions : Nat
  max_exposure_per_asset : ℚ
  open_positions : List (String × Position)
  daily_pnl : ℚ
  daily_trades : List TradeData
deriving DecidableEq, Repr

/-- A freshly constructed `RiskManager()` with the default configuration
(`max_position_size = 0.05`, `max_daily_loss = 0.02`,
`max_open_positions = 5`, `max_exposure_per_asset = 0.10`). -/
def RiskManager.new : RiskManager :=
  { max_position_size := 5 / 100
    max_daily_loss := 2 / 100
    max_open_positions := 5
    max_exposure_per_asset := 10 / 100
    open_positions := []
    daily_pnl := 0
    daily_trades := [] }

/-- The order dict as `evaluate_order` and `process_order` read it: the
`.get(…, 0)` defaults for `quantity` and `price` are already applied, so the
fields are plain rationals. -/
structure OrderData where
  order_id : Option String
  symbol : String
  side : String
  quantity : ℚ
  price : ℚ
deriving DecidableEq, Repr

/-- The rejection reasons `evaluate_order` can return, carrying the numbers
interpolated into the Python reason f-strings. -/
inductive RejectReason
  | positionSize (pct : ExtRat) (maxPct : ℚ)
  | maxOpenPositions (maxP : Nat)
  | assetExposure (symbol : String) (pct : ExtRat) (maxPct : ℚ)
  | dailyLoss (loss : ℚ) (limit : ℚ)
deriving DecidableEq, Repr

/-- The dict `evaluate_order` returns: `{"approved": …}` with an optional
`"reason"` entry. -/
structure RiskDecision where
  approved : Bool
  reason : Option RejectReason
deriving DecidableEq, Repr

/-- The Python reason strings, with the numeric rendering (`f"{x:.2%}"`,
`f"{x:.2f}"`) abstracted into the formatter arguments `fmt` (finite values)
and `fmtX` (possibly-infinite percentages); the literal text is the source's. -/
def reasonText (fmt : ℚ → String) (fmtX : ExtRat → String) : RejectReason → String
  | .positionSize pct maxPct =>
      "Position size " ++ fmtX pct ++ " exceeds maximum " ++ fmt maxPct
  | .maxOpenPositions maxP =>
      "Maximum open positions (" ++ toString maxP ++ ") reached"
  | .assetExposure symbol pct maxPct =>
      "Total exposure to " ++ symbol ++ " (" ++ fmtX pct ++ ") exceeds maximum " ++ fmt maxPct
  | .dailyLoss loss limit =>
      "Daily loss limit reached (" ++ fmt loss ++ " > " ++ fmt limit ++ ")"

/-- The `position_size_pct` expression of `evaluate_order`:
`order_value / account_balance if account_balance > 0 else float('inf')`.
The division is syntactically confined to the positive-balance branch. -/
def position_size_pct (order_value account_balance : ℚ) : ExtRat :=
  if account_balance > 0 then .fin (order_value / account_balance) else .inf

/-- The exposure accumulation loop of `evaluate_order`: sum of `value` over
open positions whose key equals the order's symbol. -/
def current_exposure (open_positions : List (String × Position)) (symbol : String) : ℚ :=
  open_positions.foldl
    (fun acc p => if p.1 = symbol then acc + p.2.value else acc) 0

/-- `RiskManager.evaluate_order` as a state transformer: the first component
of the result is the (unmodified) manager, the second the decision dict. The
four checks are in source order: position size, open-position count, asset
exposure, daily-loss circuit breaker. -/
def evaluate_order (rm : RiskManager) (order : OrderData) (account_balance : ℚ) :
    RiskManager × RiskDecision :=
  let order_value := order.quantity * order.price
  let pct := position_size_pct order_value account_balance
  if pct.gt (.fin rm.max_position_size) then
    (rm, ⟨false, some (.positionSize pct rm.max_position_size)⟩)
  else if rm.open_positions.length ≥ rm.max_open_positions
      ∧ pyLower order.side = "buy" then
    (rm, ⟨false, some (.maxOpenPositions rm.max_open_positions)⟩)
  else
    let exposure := current_exposure rm.open_positions order.symbol
    let current_exposure_pct : ℚ :=
      if account_balance > 0 then exposure / account_balance else 0
    let new_exposure_pct : ExtRat :=
      if pyLower order.side = "buy" then (ExtRat.fin current_exposure_pct).add pct
      else .fin current_exposure_pct
    if new_exposure_pct.gt (.fin rm.max_exposure_per_asset) then
      (rm, ⟨false, some (.assetExposure order.symbol new_exposure_pct rm.max_exposure_per_asset)⟩)
    else if rm.daily_pnl < 0 ∧ |rm.daily_pnl| > account_balance * rm.max_daily_loss then
      (rm, ⟨false, some (.dailyLoss |rm.daily_pnl| (account_balance * rm.max_daily_loss))⟩)
    else
      (rm, ⟨true, none⟩)

/-- `RiskManager.record_position_open`: insert/replace the position under its
symbol. -/
def record_position_open (rm : RiskManager) (position : Position) : RiskManager :=
  { rm with open_positions := setKey position.symbol position rm.open_positions }

/-- `RiskManager.record_position_close`: pop the position and add the
realized P&L to `daily_pnl`; a logged no-op when the symbol has no open
position. -/
def record_position_close (rm : RiskManager) (symbol : String) (pnl : ℚ) : RiskManager :=
  if (lookupKey symbol rm.open_positions).isSome then
    { rm with
      open_positions := removeKey symbol rm.open_positions
      daily_pnl := rm.daily_pnl + pnl }
  else
    rm

/-- `RiskManager.reset_daily_metrics`: zero the daily counters, keep the open
positions. -/
def reset_daily_metrics (rm : RiskManager) : RiskManager :=
  { rm with daily_pnl := 0, daily_trades := [] }

/-- A risk-book operation, for reasoning over call sequences on
`record_position_open` / `record_position_close`. -/
inductive RiskOp
  | openPos (p : Position)
  | closePos (symbol : String) (pnl : ℚ)
deriving DecidableEq, Repr

/-- Run a sequence of risk-book operations left to right. -/
def runRiskOps (rm : RiskManager) : List RiskOp → RiskManager
  | [] => rm
  | .openPos p :: rest => runRiskOps (record_position_open rm p) rest
  | .closePos s q :: rest => runRiskOps (record_position_close rm s q) rest

/-- Sum of the realized-P&L arguments of the `closePos` operations of a
sequence. -/
def closedPnlSum : List RiskOp → ℚ
  | [] => 0
  | .openPos _ :: rest => closedPnlSum rest
  | .closePos _ q :: rest => q + closedPnlSum rest

/-- Whether every `closePos` of the sequence, run from `rm`, finds an open
position for its symbol at the moment it executes. -/
def closesMatched (rm : RiskManager) : List RiskOp → Bool
  | [] => true
  | .openPos p :: rest => closesMatched (record_position_open rm p) rest
  | .closePos s q :: rest =>
      (lookupKey s rm.open_positions).isSome
        && closesMatched (record_position_close rm s q) rest

/-- An event published on the event bus, tagged by its topic
(`order.rejected`, `order.created`, `order.canceled`, `order.error`,
`trade.executed`) with the payload fields the pipeline fills in. -/
inductive EventMsg
  | orderRejected (order_id : String) (reason : Option RejectReason)
  | orderCreated (order_id : String) (status : String)
  | orderCanceled (order_id : String)
  | orderError (order_id : String) (error : String)
  | tradeExecuted (trade : TradeData)
deriving DecidableEq, Repr

/-- The dict returned by the adapter's `create_order`, restricted to the
fields `process_order` and `_handle_order_filled` read (`none` models an
absent key, resolved by the Python `.get` defaults). -/
structure CreateOrderResult where
  id : Option String
  status : Option String
  filled : Option ℚ
  price : Option ℚ
  fee_cost : Option ℚ
deriving DecidableEq, Repr

/-- The dict returned by the adapter's `get_order_status`, restricted to the
fields `cancel_order` reads. -/
structure OrderStatusResult where
  status : Option String
  symbol : Option String
deriving DecidableEq, Repr

/-- The outcomes of the four adapter calls a pipeline run may make, given as
inputs to the model. `Except.error` models a raised exception; an inner
`none` models a falsy return (`None` or an empty dict), which Python code
checks with `if not result`. For `account_info`, `.ok (some b)` is a dict
whose `balance` key holds `b` and `.ok none` a dict without one (the
`.get('balance', 0)` default applies); a `None` return would raise at the
`.get` call and is folded into `Except.error`. -/
structure AdapterBehavior where
  account_info : Except String (Option ℚ)
  create_order : Except String (Option CreateOrderResult)
  order_status : Except String (Option OrderStatusResult)
  cancel_result : Except String Bool
deriving Repr

/-- What one `process_order` call produces: the value it returns (`none` is
Python's `None`), the events it published in order, and the risk manager
state afterwards. -/
structure ProcessOutcome where
  result : Option CreateOrderResult
  events : List EventMsg
  risk : RiskManager
deriving DecidableEq, Repr

/-- `OrderManager._handle_order_filled`: build the trade dict, publish
`trade.executed`, then update the risk book — `record_position_open` for
buys, `record_position_close` (with the trade notional as P&L) otherwise. -/
def handle_order_filled (order : OrderData) (oid : String)
    (result : CreateOrderResult) (rm : RiskManager) : List EventMsg × RiskManager :=
  let quantity := result.filled.getD order.quantity
  let price := result.price.getD order.price
  let trade : TradeData :=
    ⟨oid, result.id, order.symbol, order.side, quantity, price, result.fee_cost.getD 0⟩
  let value := quantity * price
  let position : Position := ⟨order.symbol, order.side, quantity, price, value⟩
  if pyLower order.side = "buy" then
    ([.tradeExecuted trade], record_position_open rm position)
  else
    ([.tradeExecuted trade], record_position_close rm order.symbol value)

/-- `OrderManager.process_order`. Inputs: the `running` flag, the risk
manager state, the adapter call outcomes, the id `gen_id` that
`uuid.uuid4()` would produce for an intent without one, and the order dict.
Mirrors the source paths: not running → `None`; risk rejection →
`order.rejected` event and `None`; adapter exception (caught by the outer
`try`) → `order.error` event and `None`; falsy adapter result → `None` with
no event; otherwise `order.created`, immediate-fill handling when the venue
status is `filled` or `closed`, and the venue result is returned. -/
def process_order (running : Bool) (rm : RiskManager) (adapter : AdapterBehavior)
    (gen_id : String) (order : OrderData) : ProcessOutcome :=
  if ¬ running then ⟨none, [], rm⟩
  else
    let oid := order.order_id.getD gen_id
    let order1 := { order with order_id := some oid }
    match adapter.account_info with
    | .error e => ⟨none, [.orderError oid e], rm⟩
    | .ok info =>
      let account_balance := info.getD 0
      let (rm1, decision) := evaluate_order rm order1 account_balance
      if ¬ decision.approved then
        ⟨none, [.orderRejected oid decision.reason], rm1⟩
      else
        match adapter.create_order with
        | .error e => ⟨none, [.orderError oid e], rm1⟩
        | .ok none => ⟨none, [], rm1⟩
        | .ok (some result) =>
          let created := EventMsg.orderCreated oid (result.status.getD "pending")
          if result.status = some "filled" ∨ result.status = some "closed" then
            let (fill_events, rm2) := handle_order_filled order1 oid result rm1
            ⟨some result, created :: fill_events, rm2⟩
          else
            ⟨some result, [created], rm1⟩

/-- `OrderManager.get_order_status`: not running, an adapter exception, or a
falsy adapter result all yield an error-status dict; otherwise the adapter's
dict is returned verbatim. -/
def get_order_status (running : Bool) (adapter : AdapterBehavior) : OrderStatusResult :=
  if ¬ running then ⟨some "error", none⟩
  else
    match adapter.order_status with
    | .error _ => ⟨some "error", none⟩
    | .ok none => ⟨some "error", none⟩
    | .ok (some r) => r

/-- What one `cancel_order` call produces: the returned boolean, whether the
adapter's `cancel_order` call was made, and the events published. -/
structure CancelOutcome where
  returned : Bool
  cancel_called : Bool
  events : List EventMsg
deriving DecidableEq, Repr

/-- `OrderManager.cancel_order`: fetch the status through
`get_order_status`; refuse on an error status; refuse when the reported
status string is `filled`, `canceled` or `expired` (without calling the
adapter); otherwise call the adapter's cancel, and on a truthy result
publish `order.canceled` and return `True`. -/
def cancel_order (running : Bool) (adapter : AdapterBehavior) (order_id : String) :
    CancelOutcome :=
  if ¬ running then ⟨false, false, []⟩
  else
    let order_status := get_order_status running adapter
    if order_status.status = some "error" then ⟨false, false, []⟩
    else
      let current_status := order_status.status
      if current_status = some "filled" ∨ current_status = some "canceled"
          ∨ current_status = some "expired" then
        ⟨false, false, []⟩
      else
        match adapter.cancel_result with
        | .error _ => ⟨false, true, []⟩
        | .ok false => ⟨false, true, []⟩
        | .ok true => ⟨true, true, [.orderCanceled order_id]⟩

/-! Shared helper lemmas. -/

theorem pyLower_buy : pyLower "buy" = "buy" := by decide

theorem pyLower_closed : pyLower "closed" = "closed" := by decide

theorem pyLower_new_str : pyLower "new" = "new" := by decide

theorem pyLower_open_str : pyLower "open" = "open" := by decide

theorem pyLower_canceled : pyLower "canceled" = "canceled" := by decide

theorem pyLower_expired : pyLower "expired" = "expired" := by decide

theorem pyLower_rejected : pyLower "rejected" = "rejected" := by decide

/-- `evaluate_order` returns the manager it was given in every branch: the
Python method assigns to no attribute of `self`. -/
theorem evaluate_order_fst (rm : RiskManager) (order : OrderData) (account_balance : ℚ) :
    (evaluate_order rm order account_balance).1 = rm := by
  simp only [evaluate_order]
  repeat' split
  all_goals rfl

/-! Claim theorems. -/

/-- C10: `evaluate_order` never mutates the risk state — the manager record
it returns is the one it was given, so `open_positions`, `daily_pnl`,
`daily_trades` and the configured limits are exactly as they were before the
call, whether the intent is approved or rejected. -/
theorem evaluate_order_frame (rm : RiskManager) (order : OrderData) (account_balance : ℚ) :
    (evaluate_order rm order account_balance).1 = rm :=
  evaluate_order_fst rm order account_balance

/-- C8: with `account_balance ≤ 0` the position-size percentage is the
`float('inf')` marker (the division branch of `position_size_pct` is not
taken), and an intent with positive order value is rejected with the
position-size reason. -/
theorem evaluate_order_nonpositive_balance (rm : RiskManager) (order : OrderData)
    (account_balance : ℚ) (hb : account_balance ≤ 0)
    (hv : 0 < order.quantity * order.price) :
    position_size_pct (order.quantity * order.price) account_balance = ExtRat.inf
      ∧ (evaluate_order rm order account_balance).2.approved = false
      ∧ (evaluate_order rm order account_balance).2.reason
          = some (.positionSize ExtRat.inf rm.max_position_size) := by
  have hb' : ¬ (account_balance > 0) := not_lt.mpr hb
  have hpct : position_size_pct (order.quantity * order.price) account_balance
      = ExtRat.inf := by
    simp [position_size_pct, hb']
  refine ⟨hpct, ?_, ?_⟩ <;>
    simp [evaluate_order, hpct, ExtRat.gt]

/-- Witness for C8 at `account_balance = 0` and a buy of 1 at price 2. -/
theorem evaluate_order_nonpositive_balance_witness :
    position_size_pct ((1 : ℚ) * 2) 0 = ExtRat.inf
      ∧ (evaluate_order RiskManager.new ⟨some "o1", "BTCUSDT", "buy", 1, 2⟩ 0).2.approved = false
      ∧ (evaluate_order RiskManager.new ⟨some "o1", "BTCUSDT", "buy", 1, 2⟩ 0).2.reason
          = some (.positionSize ExtRat.inf RiskManager.new.max_position_size) :=
  evaluate_order_nonpositive_balance RiskManager.new ⟨some "o1", "BTCUSDT", "buy", 1, 2⟩ 0
    (by norm_num) (by norm_num)

/-- C3: with a positive balance, an intent whose value exceeds
`max_position_size` of the balance is rejected, and the Python reason string
contains the text "exceeds maximum" for any rendering of the numbers; in
particular (Scenario A) a buy of 0.5 at 20000 on a balance of 10000 with
`max_position_size = 0.1` is rejected. -/
theorem evaluate_order_rejects_oversized (rm : RiskManager) (order : OrderData)
    (account_balance : ℚ) (fmt : ℚ → String) (fmtX : ExtRat → String)
    (hb : 0 < account_balance)
    (hsz : rm.max_position_size < order.quantity * order.price / account_balance) :
    ((evaluate_order rm order account_balance).2.approved = false
      ∧ ∃ r, (evaluate_order rm order account_balance).2.reason = some r
          ∧ ∃ pre post, reasonText fmt fmtX r = pre ++ "exceeds maximum" ++ post)
    ∧ (evaluate_order { RiskManager.new with max_position_size := 1/10 }
        ⟨some "o1", "BTCUSDT", "buy", 1/2, 20000⟩ 10000).2.approved = false := by
  have hgt : ExtRat.gt (position_size_pct (order.quantity * order.price) account_balance)
      (.fin rm.max_position_size) = true := by
    simp [position_size_pct, hb, ExtRat.gt, decide_eq_true_eq]
    exact hsz
  constructor
  · refine ⟨?_, ?_⟩
    · simp [evaluate_order, hgt]
    · refine ⟨.positionSize (position_size_pct (order.quantity * order.price) account_balance)
        rm.max_position_size, ?_, ?_⟩
      · simp [evaluate_order, hgt]
      · refine ⟨"Position size "
            ++ fmtX (position_size_pct (order.quantity * order.price) account_balance) ++ " ",
          " " ++ fmt rm.max_position_size, ?_⟩
        rw [reasonText,
          (by decide : (" exceeds maximum " : String) = " " ++ "exceeds maximum" ++ " ")]
        simp only [String.append_assoc]
  · norm_num [evaluate_order, RiskManager.new, position_size_pct, ExtRat.gt, pyLower_buy,
      current_exposure, ExtRat.add]

/-- Witness for C3 at the Scenario A numbers, with a trivial renderer. -/
theorem evaluate_order_rejects_oversized_witness :
    (((evaluate_order { RiskManager.new with max_position_size := 1/10 }
        ⟨some "o1", "BTCUSDT", "buy", 1/2, 20000⟩ 10000).2.approved = false
      ∧ ∃ r, (evaluate_order { RiskManager.new with max_position_size := 1/10 }
            ⟨some "o1", "BTCUSDT", "buy", 1/2, 20000⟩ 10000).2.reason = some r
          ∧ ∃ pre post, reasonText (fun _ => "0.1") (fun _ => "1.0") r
              = pre ++ "exceeds maximum" ++ post)
    ∧ (evaluate_order { RiskManager.new with max_position_size := 1/10 }
        ⟨some "o1", "BTCUSDT", "buy", 1/2, 20000⟩ 10000).2.approved = false) :=
  evaluate_order_rejects_oversized { RiskManager.new with max_position_size := 1/10 }
    ⟨some "o1", "BTCUSDT", "buy", 1/2, 20000⟩ 10000 (fun _ => "0.1") (fun _ => "1.0")
    (by norm_num) (by norm_num [RiskManager.new])

/-- C2: `reconcile_with_exchange` maps the venue status to the internal
state (`new`/`open` to `SENT`; `closed` with `filled = amount` to `FILLED`;
`closed` with `filled ≠ amount` to `PARTIALLY_FILLED`; `canceled`/`expired`
to `CANCELED`; `rejected` to `REJECTED`; any status not in the mapping to
`ERROR`) and applies it via `update_state`; in particular (Scenario D)
`closed` with `filled = 0.4`, `amount = 1.0` leaves the order
`PARTIALLY_FILLED`. -/
theorem reconcile_status_mapping (m : OrderStateManager) (k : String) (d : ExchDetails)
    (now : Nat) :
    reconcile_with_exchange m k "new" d now = update_state m k OrderState.SENT (some d) now
    ∧ reconcile_with_exchange m k "open" d now = update_state m k OrderState.SENT (some d) now
    ∧ (d.filled = d.amount →
        reconcile_with_exchange m k "closed" d now
          = update_state m k OrderState.FILLED (some d) now)
    ∧ (d.filled ≠ d.amount →
        reconcile_with_exchange m k "closed" d now
          = update_state m k OrderState.PARTIALLY_FILLED (some d) now)
    ∧ reconcile_with_exchange m k "canceled" d now
        = update_state m k OrderState.CANCELED (some d) now
    ∧ reconcile_with_exchange m k "expired" d now
        = update_state m k OrderState.CANCELED (some d) now
    ∧ reconcile_with_exchange m k "rejected" d now
        = update_state m k OrderState.REJECTED (some d) now
    ∧ (∀ s, status_mapping (pyLower s) = none →
        reconcile_with_exchange m k s d now = update_state m k OrderState.ERROR (some d) now)
    ∧ get_current_state
        (reconcile_with_exchange OrderStateManager.new "key1" "closed" ⟨some (2/5), some 1⟩ now)
        "key1" = some OrderState.PARTIALLY_FILLED := by
  refine ⟨?_, ?_, ?_, ?_, ?_, ?_, ?_, ?_, ?_⟩
  · simp [reconcile_with_exchange, status_mapping, pyLower_new_str]
  · simp [reconcile_with_exchange, status_mapping, pyLower_open_str]
  · intro h
    simp [reconcile_with_exchange, status_mapping, pyLower_closed, h]
  · intro h
    simp [reconcile_with_exchange, h]
  · simp [reconcile_with_exchange, status_mapping, pyLower_canceled]
  · simp [reconcile_with_exchange, status_mapping, pyLower_expired]
  · simp [reconcile_with_exchange, status_mapping, pyLower_rejected]
  · intro s hs
    by_cases hc : s = "closed"
    · subst hc
      rw [pyLower_closed] at hs
      simp [status_mapping] at hs
    · simp [reconcile_with_exchange, hc, hs]
  · norm_num [get_current_state, reconcile_with_exchange, update_state, initialize_order,
      OrderStateManager.new, lookupKey, setKey, status_mapping, pyLower_closed]

/-- Witness for C2: the `closed`-with-equal-fill and unrecognized-status
implications at concrete inputs. -/
theorem reconcile_status_mapping_witness :
    reconcile_with_exchange OrderStateManager.new "k" "closed" ⟨some 1, some 1⟩ 0
      = update_state OrderStateManager.new "k" OrderState.FILLED (some ⟨some 1, some 1⟩) 0
    ∧ reconcile_with_exchange OrderStateManager.new "k" "weird" ⟨none, none⟩ 0
      = update_state OrderStateManager.new "k" OrderState.ERROR (some ⟨none, none⟩) 0 :=
  ⟨(reconcile_status_mapping OrderStateManager.new "k" ⟨some 1, some 1⟩ 0).2.2.1 rfl,
   (reconcile_status_mapping OrderStateManager.new "k" ⟨none, none⟩ 0).2.2.2.2.2.2.2.1
     "weird" (by decide)⟩

/-- C5 counterexample: a second `initialize_order` on an existing record is
not a no-op — after `initialize; update to SENT; initialize`, the state has
been reset from `SENT` to `PENDING` and the two-entry history has been
replaced by a fresh single-entry one. -/
theorem initialize_order_not_idempotent_cex :
    get_current_state
      (update_state (initialize_order OrderStateManager.new "k" 0) "k" OrderState.SENT none 1)
      "k" = some OrderState.SENT
    ∧ (get_state_history
        (update_state (initialize_order OrderStateManager.new "k" 0) "k" OrderState.SENT none 1)
        "k").length = 2
    ∧ get_current_state
        (initialize_order
          (update_state (initialize_order OrderStateManager.new "k" 0) "k" OrderState.SENT none 1)
          "k" 2) "k" = some OrderState.PENDING
    ∧ (get_state_history
        (initialize_order
          (update_state (initialize_order OrderStateManager.new "k" 0) "k" OrderState.SENT none 1)
          "k" 2) "k").length = 1 := by decide

/-- C5 amended: `initialize_order` unconditionally (re)creates the record —
state `PENDING`, a fresh single-entry `PENDING` history, retry counter 0 —
whether or not the key already exists; calling it twice therefore still
yields exactly one `PENDING` history entry (the second call overwrites the
first), but on an existing record it resets state, history and retry counter
rather than leaving them unchanged. -/
theorem initialize_order_overwrites (m : OrderStateManager) (k : String) (n1 n2 : Nat) :
    get_current_state (initialize_order m k n1) k = some OrderState.PENDING
    ∧ get_state_history (initialize_order m k n1) k = [⟨OrderState.PENDING, n1, none⟩]
    ∧ lookupKey k (initialize_order m k n1).retry_attempts = some 0
    ∧ get_state_history (initialize_order (initialize_order m k n2) k n1) k
        = [⟨OrderState.PENDING, n1, none⟩] := by
  simp [get_current_state, get_state_history, initialize_order, lookupKey_setKey_self]

/-- C6 counterexample: from a fresh risk state, a single
`record_position_close` on a symbol that was never opened is a no-op, so the
final `daily_pnl` (0) differs from the sum of the realized-P&L arguments
passed to the close calls (5). -/
theorem daily_pnl_sum_cex :
    (runRiskOps RiskManager.new [RiskOp.closePos "BTCUSDT" 5]).daily_pnl = 0
    ∧ closedPnlSum [RiskOp.closePos "BTCUSDT" 5] = 5 := by
  constructor
  · simp [runRiskOps, record_position_close, RiskManager.new, lookupKey]
  · norm_num [closedPnlSum]

/-- C6 amended: over any sequence of `record_position_open` /
`record_position_close` calls in which every close finds an open position
for its symbol at the moment it runs, the final `daily_pnl` equals the
starting `daily_pnl` plus the sum of the realized-P&L arguments of the close
calls; a close on a symbol with no open position is a no-op and contributes
nothing. -/
theorem daily_pnl_sums_matched_closes (rm : RiskManager) (ops : List RiskOp)
    (h : closesMatched rm ops = true) :
    (runRiskOps rm ops).daily_pnl = rm.daily_pnl + closedPnlSum ops := by
  induction ops generalizing rm with
  | nil => simp [runRiskOps, closedPnlSum]
  | cons op rest ih =>
    cases op with
    | openPos p =>
      rw [closesMatched] at h
      rw [runRiskOps, closedPnlSum, ih _ h, record_position_open]
    | closePos s q =>
      rw [closesMatched, Bool.and_eq_true] at h
      obtain ⟨h1, h2⟩ := h
      rw [runRiskOps, closedPnlSum, ih _ h2, record_position_close, if_pos h1]
      ring

/-- Witness for C6 at an open of ETHUSDT followed by its close with P&L 7. -/
theorem daily_pnl_sums_matched_closes_witness :
    (runRiskOps RiskManager.new
      [RiskOp.openPos ⟨"ETHUSDT", "buy", 1, 100, 100⟩, RiskOp.closePos "ETHUSDT" 7]).daily_pnl
      = RiskManager.new.daily_pnl
        + closedPnlSum [RiskOp.openPos ⟨"ETHUSDT", "buy", 1, 100, 100⟩,
            RiskOp.closePos "ETHUSDT" 7] :=
  daily_pnl_sums_matched_closes RiskManager.new
    [RiskOp.openPos ⟨"ETHUSDT", "buy", 1, 100, 100⟩, RiskOp.closePos "ETHUSDT" 7] (by decide)

/-- C7 counterexample: a venue status of `rejected` maps to the terminal
state `REJECTED`, yet `cancel_order` does not refuse — it invokes the
adapter's cancel call (and on a truthy result returns `True` and publishes
`order.canceled`). -/
theorem cancel_order_rejected_cex :
    status_mapping "rejected" = some OrderState.REJECTED
    ∧ (cancel_order true
        ⟨.ok (some 1), .ok none, .ok (some ⟨some "rejected", some "BTCUSDT"⟩), .ok true⟩
        "o1").cancel_called = true
    ∧ cancel_order true
        ⟨.ok (some 1), .ok none, .ok (some ⟨some "rejected", some "BTCUSDT"⟩), .ok true⟩
        "o1" = ⟨true, true, [.orderCanceled "o1"]⟩ := by decide

/-- C7 amended: `cancel_order` fetches the current status first and refuses
(returns `False`) exactly when the reported venue status string is `filled`,
`canceled` or `expired` — then without invoking the adapter's cancel call
and without publishing any event (it never touches the order-state history);
a `rejected` status, although it maps to a terminal state, is not refused
and the adapter cancel call proceeds. -/
theorem cancel_order_terminal_guard (adapter : AdapterBehavior) (order_id : String)
    (r : OrderStatusResult)
    (hst : adapter.order_status = .ok (some r))
    (hs : r.status = some "filled" ∨ r.status = some "canceled" ∨ r.status = some "expired") :
    cancel_order true adapter order_id = ⟨false, false, []⟩
    ∧ (cancel_order true
        ⟨.ok (some 1), .ok none, .ok (some ⟨some "rejected", some "BTCUSDT"⟩), .ok true⟩
        "o1").cancel_called = true := by
  constructor
  · rcases hs with hs | hs | hs <;>
      simp [cancel_order, get_order_status, hst, hs]
  · decide

/-- Witness for C7 at a venue status of `filled`. -/
theorem cancel_order_terminal_guard_witness :
    cancel_order true ⟨.ok (some 1), .ok none, .ok (some ⟨some "filled", some "BTCUSDT"⟩), .ok true⟩
      "o7" = ⟨false, false, []⟩
    ∧ (cancel_order true
        ⟨.ok (some 1), .ok none, .ok (some ⟨some "rejected", some "BTCUSDT"⟩), .ok true⟩
        "o1").cancel_called = true :=
  cancel_order_terminal_guard
    ⟨.ok (some 1), .ok none, .ok (some ⟨some "filled", some "BTCUSDT"⟩), .ok true⟩
    "o7" ⟨some "filled", some "BTCUSDT"⟩ rfl (by decide)

/-- C4 counterexample: an intent that passes risk evaluation but whose
adapter submission raises makes `process_order` publish `order.error` and
return `None` — the same ambiguous empty value it returns for a risk
rejection — not a non-empty "not submitted" result. -/
theorem process_order_none_cex :
    (evaluate_order RiskManager.new ⟨some "o1", "BTCUSDT", "buy", 1/100, 20000⟩
        10000).2.approved = true
    ∧ process_order true RiskManager.new
        ⟨.ok (some 10000), .error "boom", .ok none, .ok true⟩ "gen"
        ⟨some "o1", "BTCUSDT", "buy", 1/100, 20000⟩
      = ⟨none, [.orderError "o1" "boom"], RiskManager.new⟩ := by
  constructor
  · norm_num [evaluate_order, RiskManager.new, position_size_pct, ExtRat.gt,
      current_exposure, ExtRat.add, pyLower_buy]
  · norm_num [process_order, evaluate_order, RiskManager.new, position_size_pct, ExtRat.gt,
      current_exposure, ExtRat.add, pyLower_buy]

/-- C4 amended: for an intent that passes risk evaluation, if the adapter's
`create_order` raises then `process_order` publishes `order.error` and
returns `None`; if the adapter returns a falsy result then `process_order`
returns `None` without publishing any event; `None` is thus the return value
for risk-rejected, venue-failed and not-running operations alike, so the
return value does not distinguish them. -/
theorem process_order_failure_returns_none (rm : RiskManager) (order : OrderData)
    (gen_id : String) (balance : ℚ) (e : String) (A1 A2 : AdapterBehavior)
    (h1 : A1.account_info = .ok (some balance))
    (h2 : A1.create_order = .error e)
    (h3 : A2.account_info = .ok (some balance))
    (h4 : A2.create_order = .ok none)
    (happr : (evaluate_order rm { order with order_id := some (order.order_id.getD gen_id) }
        balance).2.approved = true) :
    process_order true rm A1 gen_id order
      = ⟨none, [.orderError (order.order_id.getD gen_id) e], rm⟩
    ∧ process_order true rm A2 gen_id order = ⟨none, [], rm⟩ := by
  constructor
  · simp [process_order, h1, h2, happr, evaluate_order_fst]
  · simp [process_order, h3, h4, happr, evaluate_order_fst]

/-- Witness for C4 at the counterexample's concrete order, for both failure
modes of the adapter. -/
theorem process_order_failure_returns_none_witness :
    process_order true RiskManager.new
        ⟨.ok (some 10000), .error "boom", .ok none, .ok true⟩ "gen"
        ⟨some "o1", "BTCUSDT", "buy", 1/100, 20000⟩
      = ⟨none, [.orderError (((some "o1" : Option String)).getD "gen") "boom"], RiskManager.new⟩
    ∧ process_order true RiskManager.new
        ⟨.ok (some 10000), .ok none, .ok none, .ok true⟩ "gen"
        ⟨some "o1", "BTCUSDT", "buy", 1/100, 20000⟩
      = ⟨none, [], RiskManager.new⟩ :=
  process_order_failure_returns_none RiskManager.new
    ⟨some "o1", "BTCUSDT", "buy", 1/100, 20000⟩ "gen" 10000 "boom"
    ⟨.ok (some 10000), .error "boom", .ok none, .ok true⟩
    ⟨.ok (some 10000), .ok none, .ok none, .ok true⟩
    rfl rfl rfl rfl
    (by norm_num [evaluate_order, RiskManager.new, position_size_pct, ExtRat.gt,
      current_exposure, ExtRat.add, pyLower_buy])

/-- The coherence invariant between the three `OrderStateManager` dicts: for
every key tracked in `order_states`, the history list exists, is non-empty,
and its last entry records the key's current state. -/
def HistInv (m : OrderStateManager) : Prop :=
  ∀ k s, lookupKey k m.order_states = some s →
    ∃ h, lookupKey k m.order_history = some h ∧ h ≠ []
      ∧ ∃ e, h.getLast? = some e ∧ e.state = s

theorem histInv_init_order (m : OrderStateManager) (k : String) (now : Nat)
    (h : HistInv m) : HistInv (initialize_order m k now) := by
  intro k' s hs
  simp only [initialize_order] at hs ⊢
  by_cases hk : k' = k
  · subst hk
    rw [lookupKey_setKey_self] at hs
    obtain rfl := Option.some.inj hs
    exact ⟨[⟨OrderState.PENDING, now, none⟩], lookupKey_setKey_self k' _ _, by simp,
      ⟨OrderState.PENDING, now, none⟩, by simp, rfl⟩
  · rw [lookupKey_setKey_ne _ _ hk] at hs
    obtain ⟨hh, hh1, hh2, hh3⟩ := h k' s hs
    exact ⟨hh, by rw [lookupKey_setKey_ne _ _ hk]; exact hh1, hh2, hh3⟩

theorem histInv_set_append (m1 : OrderStateManager) (k : String) (st : OrderState)
    (d : Option ExchDetails) (now : Nat) (h : HistInv m1) :
    HistInv { m1 with
      order_states := setKey k st m1.order_states
      order_history := setKey k
        ((lookupKey k m1.order_history).getD [] ++ [⟨st, now, d⟩]) m1.order_history } := by
  intro k' s hs
  simp only [] at hs ⊢
  by_cases hk : k' = k
  · subst hk
    rw [lookupKey_setKey_self] at hs
    obtain rfl := Option.some.inj hs
    exact ⟨(lookupKey k' m1.order_history).getD [] ++ [⟨st, now, d⟩],
      lookupKey_setKey_self k' _ _, by simp, ⟨st, now, d⟩, List.getLast?_concat _, rfl⟩
  · rw [lookupKey_setKey_ne _ _ hk] at hs
    obtain ⟨hh, hh1, hh2, hh3⟩ := h k' s hs
    exact ⟨hh, by rw [lookupKey_setKey_ne _ _ hk]; exact hh1, hh2, hh3⟩

theorem histInv_update (m : OrderStateManager) (k : String) (st : OrderState)
    (d : Option ExchDetails) (now : Nat) (h : HistInv m) :
    HistInv (update_state m k st d now) := by
  simp only [update_state]
  apply histInv_set_append
  split
  · exact histInv_init_order m k now h
  · exact h

theorem histInv_reconcile (m : OrderStateManager) (k : String) (status : String)
    (d : ExchDetails) (now : Nat) (h : HistInv m) :
    HistInv (reconcile_with_exchange m k status d now) := by
  simp only [reconcile_with_exchange]
  exact histInv_update m k _ (some d) now h

theorem histInv_should_retry (m : OrderStateManager) (k : String) (h : HistInv m) :
    HistInv (should_retry m k).2 := by
  simp only [should_retry]
  split
  · exact h
  · split
    · intro k' s hs
      exact h k' s hs
    · exact h

/-- C9: for every key known to the `OrderStateManager`, the history list is
non-empty and its last entry's state equals the key's current state in
`order_states`; the invariant holds after `initialize_order` and is
preserved by `update_state`, `reconcile_with_exchange` and `should_retry`. -/
theorem osm_history_last_matches_state (m : OrderStateManager) (k : String)
    (st : OrderState) (d : Option ExchDetails) (dd : ExchDetails) (status : String)
    (now : Nat) (h : HistInv m) :
    HistInv (initialize_order m k now)
    ∧ HistInv (update_state m k st d now)
    ∧ HistInv (reconcile_with_exchange m k status dd now)
    ∧ HistInv (should_retry m k).2 :=
  ⟨histInv_init_order m k now h, histInv_update m k st d now h,
   histInv_reconcile m k status dd now h, histInv_should_retry m k h⟩

/-- Witness for C9 starting from the empty manager. -/
theorem osm_history_last_matches_state_witness :
    HistInv (initialize_order OrderStateManager.new "k" 0)
    ∧ HistInv (update_state OrderStateManager.new "k" OrderState.SENT none 0)
    ∧ HistInv (reconcile_with_exchange OrderStateManager.new "k" "closed" ⟨some 1, some 1⟩ 0)
    ∧ HistInv (should_retry OrderStateManager.new "k").2 :=
  osm_history_last_matches_state OrderStateManager.new "k" OrderState.SENT none
    ⟨some 1, some 1⟩ "closed" 0
    (by intro k s hs; simp [OrderStateManager.new, lookupKey] at hs)

/-- An operation applied to one order key of the `OrderStateManager`, for
reasoning over call sequences. -/
inductive OsmOp
  | initOrder
  | setState (st : OrderState) (d : Option ExchDetails)
  | reconcileOp (status : String) (d : ExchDetails)
  | retryCheck
deriving DecidableEq, Repr

/-- Run a sequence of operations on key `k` left to right, returning the
final manager and the number of `should_retry` calls that returned true. -/
def runOsmOps (m : OrderStateManager) (k : String) (now : Nat) :
    List OsmOp → OrderStateManager × Nat
  | [] => (m, 0)
  | OsmOp.initOrder :: rest => runOsmOps (initialize_order m k now) k now rest
  | OsmOp.setState st d :: rest => runOsmOps (update_state m k st d now) k now rest
  | OsmOp.reconcileOp status d :: rest =>
      runOsmOps (reconcile_with_exchange m k status d now) k now rest
  | OsmOp.retryCheck :: rest =>
      let r := should_retry m k
      let res := runOsmOps r.2 k now rest
      (res.1, (if r.1 then 1 else 0) + res.2)

/-- Whether a sequence contains no `initOrder` operation. -/
def noInit : List OsmOp → Bool
  | [] => true
  | OsmOp.initOrder :: _ => false
  | _ :: rest => noInit rest

/-- The retry counter recorded for a key (`retry_attempts.get(k, 0)`). -/
def retryCount (m : OrderStateManager) (k : String) : Nat :=
  (lookupKey k m.retry_attempts).getD 0

theorem update_state_present_facts (m : OrderStateManager) (k : String) (st : OrderState)
    (d : Option ExchDetails) (now : Nat) (h : ¬ lookupKey k m.order_states = none) :
    (update_state m k st d now).retry_attempts = m.retry_attempts
    ∧ (update_state m k st d now).max_retries = m.max_retries
    ∧ lookupKey k (update_state m k st d now).order_states = some st := by
  simp [update_state, if_neg h, lookupKey_setKey_self]

theorem reconcile_eq_update (m : OrderStateManager) (k status : String) (d : ExchDetails)
    (now : Nat) :
    reconcile_with_exchange m k status d now
      = update_state m k
          (if status = "closed" ∧ d.filled ≠ d.amount then OrderState.PARTIALLY_FILLED
           else (status_mapping (pyLower status)).getD OrderState.ERROR)
          (some d) now := rfl

theorem should_retry_true_iff (m : OrderStateManager) (k : String) :
    (should_retry m k).1 = true ↔
      ((get_current_state m k = some OrderState.ERROR
          ∨ get_current_state m k = some OrderState.REJECTED)
        ∧ retryCount m k < m.max_retries) := by
  cases hl : lookupKey k m.order_states with
  | none => simp [should_retry, hl, get_current_state]
  | some st =>
    simp only [should_retry, hl, get_current_state, retryCount]
    by_cases hcond : (st = OrderState.ERROR ∨ st = OrderState.REJECTED)
        ∧ (lookupKey k m.retry_attempts).getD 0 < m.max_retries
    · simp only [if_pos hcond]
      simpa using hcond
    · simp only [if_neg hcond]
      simpa using hcond

theorem should_retry_true_facts (m : OrderStateManager) (k : String)
    (h : (should_retry m k).1 = true) :
    retryCount (should_retry m k).2 k = retryCount m k + 1
    ∧ (should_retry m k).2.max_retries = m.max_retries
    ∧ (should_retry m k).2.order_states = m.order_states := by
  cases hl : lookupKey k m.order_states with
  | none => simp [should_retry, hl] at h
  | some st =>
    simp only [should_retry, hl] at h ⊢
    by_cases hcond : (st = OrderState.ERROR ∨ st = OrderState.REJECTED)
        ∧ (lookupKey k m.retry_attempts).getD 0 < m.max_retries
    · simp only [if_pos hcond]
      simp [retryCount, lookupKey_setKey_self]
    · simp [if_neg hcond] at h

theorem should_retry_false_state (m : OrderStateManager) (k : String)
    (h : (should_retry m k).1 = false) : (should_retry m k).2 = m := by
  cases hl : lookupKey k m.order_states with
  | none => simp [should_retry, hl]
  | some st =>
    simp only [should_retry, hl] at h ⊢
    by_cases hcond : (st = OrderState.ERROR ∨ st = OrderState.REJECTED)
        ∧ (lookupKey k m.retry_attempts).getD 0 < m.max_retries
    · simp [if_pos hcond] at h
    · simp [if_neg hcond]

theorem countTrues_le (k : String) (now : Nat) (ops : List OsmOp) :
    ∀ m : OrderStateManager, noInit ops = true →
      ¬ lookupKey k m.order_states = none →
      (runOsmOps m k now ops).2 ≤ m.max_retries - retryCount m k := by
  induction ops with
  | nil =>
    intro m _ _
    simp [runOsmOps]
  | cons op rest ih =>
    intro m hni hpres
    cases op with
    | initOrder => simp [noInit] at hni
    | setState st d =>
      have hni' : noInit rest = true := by simpa [noInit] using hni
      obtain ⟨hr, hmax, hp⟩ := update_state_present_facts m k st d now hpres
      have hbound := ih (update_state m k st d now) hni' (by rw [hp]; simp)
      rw [runOsmOps]
      rw [hmax, retryCount, hr, ← retryCount] at hbound
      exact hbound
    | reconcileOp status d =>
      have hni' : noInit rest = true := by simpa [noInit] using hni
      rw [runOsmOps, reconcile_eq_update]
      obtain ⟨hr, hmax, hp⟩ := update_state_present_facts m k
        (if status = "closed" ∧ d.filled ≠ d.amount then OrderState.PARTIALLY_FILLED
         else (status_mapping (pyLower status)).getD OrderState.ERROR)
        (some d) now hpres
      have hbound := ih _ hni' (by rw [hp]; simp)
      rw [hmax, retryCount, hr, ← retryCount] at hbound
      exact hbound
    | retryCheck =>
      have hni' : noInit rest = true := by simpa [noInit] using hni
      simp only [runOsmOps]
      cases hb : (should_retry m k).1 with
      | false =>
        have hm := should_retry_false_state m k hb
        have hbound := ih m hni' hpres
        rw [hm]
        simpa using hbound
      | true =>
        obtain ⟨_, hlt⟩ := (should_retry_true_iff m k).mp hb
        obtain ⟨hinc, hmax, hstates⟩ := should_retry_true_facts m k hb
        have hbound := ih (should_retry m k).2 hni' (by rw [hstates]; exact hpres)
        rw [hmax, hinc] at hbound
        simp only [hb, if_true]
        omega

/-- The Scenario E states: a key initialized, driven to `ERROR`, then checked
for retry four times in a row. -/
def errKeyM1 : OrderStateManager :=
  update_state (initialize_order OrderStateManager.new "k" 0) "k" OrderState.ERROR none 1

def errKeyM2 : OrderStateManager := (should_retry errKeyM1 "k").2

def errKeyM3 : OrderStateManager := (should_retry errKeyM2 "k").2

def errKeyM4 : OrderStateManager := (should_retry errKeyM3 "k").2

/-- C1 counterexample: over a sequence of operations that re-initializes the
key, `should_retry` returns true four times although `max_retries = 3` —
`initialize_order` resets the retry counter, so the budget is not global
over arbitrary operation sequences. -/
theorem should_retry_budget_cex :
    (runOsmOps OrderStateManager.new "k" 0
      [OsmOp.initOrder, OsmOp.setState OrderState.ERROR none, OsmOp.retryCheck,
       OsmOp.retryCheck, OsmOp.retryCheck, OsmOp.initOrder,
       OsmOp.setState OrderState.ERROR none, OsmOp.retryCheck]).2 = 4
    ∧ OrderStateManager.new.max_retries = 3 := by decide

/-- C1 amended: over any sequence of `update_state` /
`reconcile_with_exchange` / `should_retry` operations on a tracked key that
contains no re-`initialize_order`, `should_retry` returns true at most
`max_retries - retryCount` more times (so at most `max_retries = 3` from a
fresh counter); it returns true only when the key's current state is `ERROR`
or `REJECTED` and its counter is below the ceiling, and each true return
increments the counter; with the key in `ERROR` and `max_retries = 3`, four
consecutive checks yield true, true, true, false. -/
theorem should_retry_budget (m : OrderStateManager) (k : String) (now : Nat)
    (ops : List OsmOp)
    (hpres : ¬ lookupKey k m.order_states = none)
    (hni : noInit ops = true) :
    (runOsmOps m k now ops).2 ≤ m.max_retries - retryCount m k
    ∧ ((should_retry m k).1 = true →
        (get_current_state m k = some OrderState.ERROR
          ∨ get_current_state m k = some OrderState.REJECTED)
        ∧ retryCount m k < m.max_retries
        ∧ retryCount (should_retry m k).2 k = retryCount m k + 1)
    ∧ OrderStateManager.new.max_retries = 3
    ∧ (should_retry errKeyM1 "k").1 = true
    ∧ (should_retry errKeyM2 "k").1 = true
    ∧ (should_retry errKeyM3 "k").1 = true
    ∧ (should_retry errKeyM4 "k").1 = false := by
  refine ⟨countTrues_le k now ops m hni hpres, ?_, by decide, by decide, by decide,
    by decide, by decide⟩
  intro hb
  obtain ⟨hcase, hlt⟩ := (should_retry_true_iff m k).mp hb
  exact ⟨hcase, hlt, (should_retry_true_facts m k hb).1⟩

/-- Witness for C1: a freshly initialized key driven to `ERROR` and checked
four times. -/
theorem should_retry_budget_witness :
    (runOsmOps (initialize_order OrderStateManager.new "k" 0) "k" 1
        [OsmOp.setState OrderState.ERROR none, OsmOp.retryCheck, OsmOp.retryCheck,
         OsmOp.retryCheck, OsmOp.retryCheck]).2
      ≤ (initialize_order OrderStateManager.new "k" 0).max_retries
          - retryCount (initialize_order OrderStateManager.new "k" 0) "k"
    ∧ ((should_retry (initialize_order OrderStateManager.new "k" 0) "k").1 = true →
        (get_current_state (initialize_order OrderStateManager.new "k" 0) "k"
            = some OrderState.ERROR
          ∨ get_current_state (initialize_order OrderStateManager.new "k" 0) "k"
            = some OrderState.REJECTED)
        ∧ retryCount (initialize_order OrderStateManager.new "k" 0) "k"
            < (initialize_order OrderStateManager.new "k" 0).max_retries
        ∧ retryCount (should_retry (initialize_order OrderStateManager.new "k" 0) "k").2 "k"
            = retryCount (initialize_order OrderStateManager.new "k" 0) "k" + 1)
    ∧ OrderStateManager.new.max_retries = 3
    ∧ (should_retry errKeyM1 "k").1 = true
    ∧ (should_retry errKeyM2 "k").1 = true
    ∧ (should_retry errKeyM3 "k").1 = true
    ∧ (should_retry errKeyM4 "k").1 = false :=
  should_retry_budget (initialize_order OrderStateManager.new "k" 0) "k" 1
    [OsmOp.setState OrderState.ERROR none, OsmOp.retryCheck, OsmOp.retryCheck,
     OsmOp.retryCheck, OsmOp.retryCheck]
    (by decide) (by decide)

end StreamScalp
